import Mathlib

/-!
Shallow embedding of the BarangayLink frontend API client
(frontend/src/services/api.js together with the AuthContext provider in the
same source file): the axios response interceptor with its 401
refresh-and-retry protocol, the paginated request helpers, and the
session/auth state holder operations (logout, startup restoration,
role predicates).
-/

set_option maxRecDepth 8000

namespace BarangayLink

/-- Durable client-side storage: the three localStorage keys used by the
client (token, refreshToken, user). A value of none means the key is absent
(localStorage.getItem returns null / the key was removed). -/
structure Storage where
  token : Option String
  refreshToken : Option String
  user : Option String
deriving Repr, DecidableEq

/-- The axios instance defaults object; the only default header the client
mutates is the common Authorization header. -/
structure Defaults where
  authHeader : Option String
deriving Repr, DecidableEq

/-- The originalRequest (error.config) as seen by the response interceptor:
the per-request already-retried marker and the Authorization header of that
request. -/
structure AxiosRequest where
  retry : Bool
  authHeader : Option String
deriving Repr, DecidableEq

/-- The shape of an axios error: a server response with a status (and an
optional body message), a request that got no response at all, or an error
raised while setting up the request. -/
inductive AxiosError where
  | response (status : Nat) (message : Option String)
  | network
  | setup (msg : String)
deriving Repr, DecidableEq

/-- Outcome of the POST to /auth/refresh-token performed inside the
interceptor: the server either resolves with a new token pair or rejects. -/
inductive RefreshOutcome where
  | success (token : String) (newRefreshToken : String)
  | failure
deriving Repr, DecidableEq

/-- Error classification performed by the switch statement in the
interceptor error handler (the console.error branches), plus the two
non-response branches. -/
inductive ErrorKind where
  | badRequest
  | forbidden
  | notFound
  | rateLimited
  | serverError
  | otherStatus (status : Nat)
  | networkError
  | requestError
deriving Repr, DecidableEq

/-- Classification of an axios error by the switch on error.response.status
in api.js lines 75 to 99 (cases 400, 403, 404, 429, 500, default), the
error.request branch, and the setup branch. -/
def classifyError : AxiosError → ErrorKind
  | .response 400 _ => .badRequest
  | .response 403 _ => .forbidden
  | .response 404 _ => .notFound
  | .response 429 _ => .rateLimited
  | .response 500 _ => .serverError
  | .response s _ => .otherStatus s
  | .network => .networkError
  | .setup _ => .requestError

/-- True exactly when the error is a server response with status 401
(the condition error.response?.status === 401). -/
def is401 : AxiosError → Bool
  | .response 401 _ => true
  | _ => false

/-- How the interceptor error handler terminates: it re-issues the original
request (return api(originalRequest)), rejects with the refresh error
(Promise.reject(refreshError)), or rejects with the original error after
classification (Promise.reject(error)). -/
inductive InterceptOutcome where
  | retryIssued
  | rejectRefreshError
  | rejectOriginal (err : AxiosError) (kind : ErrorKind)
deriving Repr, DecidableEq

/-- Complete observable effect of one run of the response interceptor error
handler: final storage, final axios defaults, final original-request object,
how many POSTs to /auth/refresh-token were made, how many times the original
request was re-issued, whether window.location was pointed at /login, and
the terminating outcome. -/
structure InterceptResult where
  storage : Storage
  defaults : Defaults
  request : AxiosRequest
  refreshAttempts : Nat
  retries : Nat
  redirectToLogin : Bool
  outcome : InterceptOutcome
deriving Repr, DecidableEq

/-- The response interceptor error handler of api.js lines 31 to 103.
On a 401 whose request is not yet marked retried, the marker is set; if a
refresh token is stored, one refresh POST is made: on success both tokens
are stored, the default and per-request Authorization headers are set to the
new bearer token, and the original request is re-issued once; on refresh
failure the three storage keys are removed, the browser is redirected to
/login, and the call rejects with the refresh error. If no refresh token is
stored, control falls through to the generic error handling. Every other
error is classified by status and rejected to the caller unchanged. -/
def responseErrorInterceptor (s : Storage) (d : Defaults) (req : AxiosRequest)
    (err : AxiosError) (refresh : RefreshOutcome) : InterceptResult :=
  if is401 err && !req.retry then
    let req1 : AxiosRequest := { req with retry := true }
    match s.refreshToken with
    | some _ =>
      match refresh with
      | .success t nrt =>
        { storage := { s with token := some t, refreshToken := some nrt }
          defaults := { authHeader := some ("Bearer " ++ t) }
          request := { req1 with authHeader := some ("Bearer " ++ t) }
          refreshAttempts := 1
          retries := 1
          redirectToLogin := false
          outcome := .retryIssued }
      | .failure =>
        { storage := { token := none, refreshToken := none, user := none }
          defaults := d
          request := req1
          refreshAttempts := 1
          retries := 0
          redirectToLogin := true
          outcome := .rejectRefreshError }
    | none =>
      { storage := s
        defaults := d
        request := req1
        refreshAttempts := 0
        retries := 0
        redirectToLogin := false
        outcome := .rejectOriginal err (classifyError err) }
  else
    { storage := s
      defaults := d
      request := req
      refreshAttempts := 0
      retries := 0
      redirectToLogin := false
      outcome := .rejectOriginal err (classifyError err) }

/-- The user object held by the auth provider; the only field the role
predicates read is role. -/
structure User where
  role : String
deriving Repr, DecidableEq

/-- hasRole from the auth provider: user?.role === role. When no user is
set, user?.role is undefined and the strict comparison with a role string is
false. -/
def hasRole (user : Option User) (role : String) : Bool :=
  match user with
  | some u => u.role == role
  | none => false

/-- hasAnyRole from the auth provider: roles.includes(user?.role). When no
user is set, user?.role is undefined, which is not a member of a list of
role strings. -/
def hasAnyRole (user : Option User) (roles : List String) : Bool :=
  match user with
  | some u => roles.contains u.role
  | none => false

/-- Observable effect of the logout operation: final storage, final axios
defaults, final in-memory token and user state, whether the router navigated
to /login, and whether the returned promise resolved. -/
structure LogoutResult where
  storage : Storage
  defaults : Defaults
  memToken : Option String
  memUser : Option User
  navigatedToLogin : Bool
  resolved : Bool
deriving Repr, DecidableEq

/-- The logout function of the auth provider. The server notification
POST /auth/logout is awaited inside a try whose catch ignores any error;
the finally block then removes the token and user storage keys, deletes the
default Authorization header, resets the in-memory token and user to null,
and navigates to /login. Both the success and the failure of the server
call reach the same finally block, so the result does not depend on
serverNotifyOk and the promise always resolves. -/
def logout (s : Storage) (_memToken : Option String) (_memUser : Option User)
    (serverNotifyOk : Bool) : LogoutResult :=
  let cleanup : LogoutResult :=
    { storage := { s with token := none, user := none }
      defaults := { authHeader := none }
      memToken := none
      memUser := none
      navigatedToLogin := true
      resolved := true }
  if serverNotifyOk then cleanup else cleanup

/-- Observable effect of the startup auth restoration: final storage, final
axios defaults, final in-memory token and user, the loading flag, and
whether any error was surfaced to the caller. -/
structure InitResult where
  storage : Storage
  defaults : Defaults
  memToken : Option String
  memUser : Option User
  loading : Bool
  errorSurfaced : Bool
deriving Repr, DecidableEq

/-- The startup restoration effect of the auth provider (the async function
awaited on mount). If both the token and user keys are stored, the default
Authorization header is set to the stored bearer token and the token is
verified with GET /auth/verify: on success the in-memory token and parsed
user are set; on failure the token and user storage keys are removed and the
default Authorization header is deleted, while the in-memory token and user
keep their initial values and no error escapes the catch. memToken0 and
memUser0 are the initial values of the two useState cells. -/
def initAuth (s : Storage) (d : Defaults) (memToken0 : Option String)
    (memUser0 : Option User) (parseUser : String → User) (verifyOk : Bool) :
    InitResult :=
  match s.token, s.user with
  | some t, some u =>
    if verifyOk then
      { storage := s
        defaults := { authHeader := some ("Bearer " ++ t) }
        memToken := some t
        memUser := some (parseUser u)
        loading := false
        errorSurfaced := false }
    else
      { storage := { s with token := none, user := none }
        defaults := { authHeader := none }
        memToken := memToken0
        memUser := memUser0
        loading := false
        errorSurfaced := false }
  | _, _ =>
    { storage := s
      defaults := d
      memToken := memToken0
      memUser := memUser0
      loading := false
      errorSurfaced := false }

/-- The auth provider startup as mounted: the token state cell is
initialized from the stored token (useState(localStorage.getItem(token)))
and the user state cell starts as null, then the restoration effect runs. -/
def authProviderStartup (s : Storage) (d : Defaults) (parseUser : String → User)
    (verifyOk : Bool) : InitResult :=
  initAuth s d s.token none parseUser verifyOk

/-- A parameter value in a request params object. -/
inductive ParamVal where
  | num (n : Int)
  | str (s : String)
deriving Repr, DecidableEq

/-- A plain JS object passed as request params, as an ordered field list. -/
abbrev JSObj := List (String × ParamVal)

/-- A response body of the shape consumed by paginatedRequest: the wire
envelope with success flag and optional message, a data field, and a
pagination field. -/
structure ApiBody (α β : Type) where
  success : Bool
  data : α
  pagination : β
  message : Option String
deriving Repr, DecidableEq

/-- The normalized shape returned by paginatedRequest. -/
structure PageResult (α β : Type) where
  data : α
  pagination : β
deriving Repr, DecidableEq

/-- paginatedRequest from api.js: performs GET endpoint with the given
params against the server and returns the data and pagination fields of the
response body. The server is the network oracle mapping an endpoint and
params to a response body. -/
def paginatedRequest {α β : Type} (server : String → JSObj → ApiBody α β)
    (endpoint : String) (params : JSObj) : PageResult α β :=
  let response := server endpoint params
  { data := response.data, pagination := response.pagination }

/-- The object literal built by infiniteScrollRequest: the spread
expression with keys page, limit and then the fields of params. -/
def scrollParams (page limit : Int) (params : JSObj) : JSObj :=
  ("page", ParamVal.num page) :: ("limit", ParamVal.num limit) :: params

/-- infiniteScrollRequest from api.js: delegates to paginatedRequest with
the params object built from page, limit and the extra params. -/
def infiniteScrollRequest {α β : Type} (server : String → JSObj → ApiBody α β)
    (endpoint : String) (page limit : Int) (params : JSObj) : PageResult α β :=
  paginatedRequest server endpoint (scrollParams page limit params)

/-- infiniteScrollRequest as called with limit and params omitted: the
source declares the defaults limit = 20 and params = empty object. -/
def infiniteScrollRequestOmitted {α β : Type}
    (server : String → JSObj → ApiBody α β) (endpoint : String) (page : Int) :
    PageResult α β :=
  infiniteScrollRequest server endpoint page 20 []

/-- Helper: on any error that is not a 401 response, the interceptor takes
the generic branch: nothing is mutated, no refresh and no retry happen, and
the original error is rejected with its classification. -/
theorem interceptor_non401 (s : Storage) (d : Defaults) (req : AxiosRequest)
    (err : AxiosError) (refresh : RefreshOutcome) (h : is401 err = false) :
    responseErrorInterceptor s d req err refresh =
      { storage := s
        defaults := d
        request := req
        refreshAttempts := 0
        retries := 0
        redirectToLogin := false
        outcome := .rejectOriginal err (classifyError err) } := by
  simp [responseErrorInterceptor, h]

/-- C1 counterexample: a 401 on a request not yet marked retried, with no
refreshToken key in storage, performs zero refresh attempts and zero
retries, refuting the claim that every such call performs exactly one
refresh attempt and exactly one retry. -/
theorem c1_counterexample :
    ¬ ((responseErrorInterceptor ⟨some "t", none, some "u"⟩ ⟨none⟩
          ⟨false, none⟩ (.response 401 none) .failure).refreshAttempts = 1 ∧
       (responseErrorInterceptor ⟨some "t", none, some "u"⟩ ⟨none⟩
          ⟨false, none⟩ (.response 401 none) .failure).retries = 1) := by
  decide

/-- C1 (amended): on a 401 for a not-yet-retried request, when a refresh
token is stored the interceptor performs exactly one refresh attempt,
followed by exactly one retry when the refresh succeeds and by none when it
fails; when no refresh token is stored it performs no refresh and no retry
and rejects the 401; and a request already marked retried that receives a
second 401 triggers no refresh and no retry and is rejected to the caller
as an ordinary 401 error, so no infinite loop arises. -/
theorem c1_refresh_retry (s : Storage) (d : Defaults) (req : AxiosRequest)
    (m : Option String) (r : RefreshOutcome) :
    (req.retry = false → s.refreshToken.isSome = true →
      (responseErrorInterceptor s d req (.response 401 m) r).refreshAttempts = 1 ∧
      (∀ t n, r = .success t n →
        (responseErrorInterceptor s d req (.response 401 m) r).retries = 1 ∧
        (responseErrorInterceptor s d req (.response 401 m) r).outcome =
          .retryIssued) ∧
      (r = .failure →
        (responseErrorInterceptor s d req (.response 401 m) r).retries = 0)) ∧
    (req.retry = false → s.refreshToken = none →
      (responseErrorInterceptor s d req (.response 401 m) r).refreshAttempts = 0 ∧
      (responseErrorInterceptor s d req (.response 401 m) r).retries = 0 ∧
      (responseErrorInterceptor s d req (.response 401 m) r).outcome =
        .rejectOriginal (.response 401 m) (.otherStatus 401)) ∧
    (req.retry = true →
      (responseErrorInterceptor s d req (.response 401 m) r).refreshAttempts = 0 ∧
      (responseErrorInterceptor s d req (.response 401 m) r).retries = 0 ∧
      (responseErrorInterceptor s d req (.response 401 m) r).outcome =
        .rejectOriginal (.response 401 m) (.otherStatus 401)) := by
  obtain ⟨retry, ah⟩ := req
  refine ⟨?_, ?_, ?_⟩
  · rintro rfl hrt
    obtain ⟨rt, hrt⟩ := Option.isSome_iff_exists.mp hrt
    cases r with
    | success t n =>
      refine ⟨?_, ?_, ?_⟩ <;>
        simp [responseErrorInterceptor, is401, hrt]
    | failure =>
      refine ⟨?_, ?_, ?_⟩ <;>
        simp [responseErrorInterceptor, is401, hrt]
  · rintro rfl hrt
    simp [responseErrorInterceptor, is401, hrt, classifyError]
  · rintro rfl
    simp [responseErrorInterceptor, is401, classifyError]

/-- C1 witness: concrete run with a stored refresh token, an un-retried
request, and a successful refresh. -/
theorem c1_witness :
    (responseErrorInterceptor ⟨some "t", some "rt", some "u"⟩ ⟨none⟩
        ⟨false, none⟩ (.response 401 none)
        (.success "t2" "rt2")).refreshAttempts = 1 ∧
    (responseErrorInterceptor ⟨some "t", some "rt", some "u"⟩ ⟨none⟩
        ⟨false, none⟩ (.response 401 none) (.success "t2" "rt2")).retries = 1 := by
  have h := (c1_refresh_retry ⟨some "t", some "rt", some "u"⟩ ⟨none⟩
    ⟨false, none⟩ none (.success "t2" "rt2")).1 rfl rfl
  exact ⟨h.1, (h.2.1 "t2" "rt2" rfl).1⟩

/-- C2: when the refresh protocol itself fails while handling a 401 for a
not-yet-retried request (a refresh token was stored and the refresh POST
rejected), the interceptor removes the token, refreshToken and user storage
keys, redirects the browser to /login, and rejects the call with the
refresh error. -/
theorem c2_refresh_failure_clears_session (s : Storage) (d : Defaults)
    (req : AxiosRequest) (m : Option String) (h : req.retry = false)
    (hrt : s.refreshToken.isSome = true) :
    (responseErrorInterceptor s d req (.response 401 m) .failure).storage =
      ⟨none, none, none⟩ ∧
    (responseErrorInterceptor s d req (.response 401 m)
        .failure).redirectToLogin = true ∧
    (responseErrorInterceptor s d req (.response 401 m) .failure).outcome =
      .rejectRefreshError := by
  obtain ⟨rt, hrt⟩ := Option.isSome_iff_exists.mp hrt
  obtain ⟨retry, ah⟩ := req
  cases h
  refine ⟨?_, ?_, ?_⟩ <;> simp [responseErrorInterceptor, is401, hrt]

/-- C2 witness: concrete run of the refresh-failure path. -/
theorem c2_witness :
    (responseErrorInterceptor ⟨some "t", some "rt", some "u"⟩ ⟨some "h"⟩
        ⟨false, none⟩ (.response 401 none) .failure).storage =
      ⟨none, none, none⟩ ∧
    (responseErrorInterceptor ⟨some "t", some "rt", some "u"⟩ ⟨some "h"⟩
        ⟨false, none⟩ (.response 401 none) .failure).redirectToLogin = true ∧
    (responseErrorInterceptor ⟨some "t", some "rt", some "u"⟩ ⟨some "h"⟩
        ⟨false, none⟩ (.response 401 none) .failure).outcome =
      .rejectRefreshError :=
  c2_refresh_failure_clears_session ⟨some "t", some "rt", some "u"⟩ ⟨some "h"⟩
    ⟨false, none⟩ none rfl rfl

/-- C3: logout resolves successfully for every outcome of the server
notification call, and afterwards the token and user storage keys are
removed, the default Authorization header is deleted, the in-memory token
and user are null, and the router navigated to the unauthenticated route. -/
theorem c3_logout_never_fails (s : Storage) (mt : Option String)
    (mu : Option User) (serverNotifyOk : Bool) :
    (logout s mt mu serverNotifyOk).resolved = true ∧
    (logout s mt mu serverNotifyOk).storage.token = none ∧
    (logout s mt mu serverNotifyOk).storage.user = none ∧
    (logout s mt mu serverNotifyOk).defaults.authHeader = none ∧
    (logout s mt mu serverNotifyOk).memToken = none ∧
    (logout s mt mu serverNotifyOk).memUser = none ∧
    (logout s mt mu serverNotifyOk).navigatedToLogin = true := by
  cases serverNotifyOk <;>
    exact ⟨rfl, rfl, rfl, rfl, rfl, rfl, rfl⟩

/-- C4 counterexample: with a persisted token and user and a server that
rejects verification, the resulting in-memory token is the persisted value,
not empty: the token state cell is initialized from storage and the failure
path never resets it, so the resulting session is not empty as claimed. -/
theorem c4_counterexample :
    (authProviderStartup ⟨some "tok", some "rt", some "u"⟩ ⟨none⟩
        (fun _ => ⟨"MEMBER"⟩) false).memToken = some "tok" ∧
    ¬ (authProviderStartup ⟨some "tok", some "rt", some "u"⟩ ⟨none⟩
        (fun _ => ⟨"MEMBER"⟩) false).memToken = none := by
  constructor
  · rfl
  · intro h
    simp [authProviderStartup, initAuth] at h

/-- C4 (amended): on startup with a persisted token and user, if the server
verification fails then the in-memory user remains null (never set from the
persisted value), the token and user storage keys and the default
Authorization header are removed, the refreshToken key is untouched, and no
error is surfaced; the in-memory token however keeps its initial value,
which was loaded from the persisted token. -/
theorem c4_startup_verify_failure (s : Storage) (d : Defaults)
    (parseUser : String → User) (t u : String) (ht : s.token = some t)
    (hu : s.user = some u) :
    (authProviderStartup s d parseUser false).memUser = none ∧
    (authProviderStartup s d parseUser false).memToken = some t ∧
    (authProviderStartup s d parseUser false).storage.token = none ∧
    (authProviderStartup s d parseUser false).storage.user = none ∧
    (authProviderStartup s d parseUser false).storage.refreshToken =
      s.refreshToken ∧
    (authProviderStartup s d parseUser false).defaults.authHeader = none ∧
    (authProviderStartup s d parseUser false).errorSurfaced = false := by
  refine ⟨?_, ?_, ?_, ?_, ?_, ?_, ?_⟩ <;>
    simp [authProviderStartup, initAuth, ht, hu]

/-- C4 witness: concrete startup with persisted token and user and failing
verification. -/
theorem c4_witness :
    (authProviderStartup ⟨some "tk", some "rt", some "us"⟩ ⟨some "h"⟩
        (fun _ => ⟨"ADMIN"⟩) false).memUser = none ∧
    (authProviderStartup ⟨some "tk", some "rt", some "us"⟩ ⟨some "h"⟩
        (fun _ => ⟨"ADMIN"⟩) false).memToken = some "tk" ∧
    (authProviderStartup ⟨some "tk", some "rt", some "us"⟩ ⟨some "h"⟩
        (fun _ => ⟨"ADMIN"⟩) false).storage.token = none ∧
    (authProviderStartup ⟨some "tk", some "rt", some "us"⟩ ⟨some "h"⟩
        (fun _ => ⟨"ADMIN"⟩) false).storage.user = none ∧
    (authProviderStartup ⟨some "tk", some "rt", some "us"⟩ ⟨some "h"⟩
        (fun _ => ⟨"ADMIN"⟩) false).storage.refreshToken =
      (Storage.mk (some "tk") (some "rt") (some "us")).refreshToken ∧
    (authProviderStartup ⟨some "tk", some "rt", some "us"⟩ ⟨some "h"⟩
        (fun _ => ⟨"ADMIN"⟩) false).defaults.authHeader = none ∧
    (authProviderStartup ⟨some "tk", some "rt", some "us"⟩ ⟨some "h"⟩
        (fun _ => ⟨"ADMIN"⟩) false).errorSurfaced = false :=
  c4_startup_verify_failure ⟨some "tk", some "rt", some "us"⟩ ⟨some "h"⟩
    (fun _ => ⟨"ADMIN"⟩) "tk" "us" rfl rfl

/-- C5: every non-401 error outcome (statuses 400, 403, 404, 429, 500, or
no response at all) causes no retry and no refresh attempt; the call rejects
with the original error together with its status classification, and the
classification maps 400 to bad request, 403 to forbidden, 404 to not found,
429 to rate limited, 500 to server error, and a missing response to a
network error, so the error is surfaced rather than swallowed. -/
theorem c5_non_auth_errors_reject (s : Storage) (d : Defaults)
    (req : AxiosRequest) (refresh : RefreshOutcome) (err : AxiosError)
    (h : (∃ st m, err = .response st m ∧ st ∈ [400, 403, 404, 429, 500]) ∨
      err = .network) :
    (responseErrorInterceptor s d req err refresh).retries = 0 ∧
    (responseErrorInterceptor s d req err refresh).refreshAttempts = 0 ∧
    (responseErrorInterceptor s d req err refresh).outcome =
      .rejectOriginal err (classifyError err) ∧
    (responseErrorInterceptor s d req err refresh).redirectToLogin = false ∧
    (∀ m, classifyError (.response 400 m) = .badRequest) ∧
    (∀ m, classifyError (.response 403 m) = .forbidden) ∧
    (∀ m, classifyError (.response 404 m) = .notFound) ∧
    (∀ m, classifyError (.response 429 m) = .rateLimited) ∧
    (∀ m, classifyError (.response 500 m) = .serverError) ∧
    classifyError .network = .networkError := by
  have h401 : is401 err = false := by
    rcases h with ⟨st, m, rfl, hst⟩ | rfl
    · simp only [List.mem_cons, List.mem_singleton] at hst
      rcases hst with rfl | rfl | rfl | rfl | rfl | h
      · rfl
      · rfl
      · rfl
      · rfl
      · rfl
      · simp at h
    · rfl
  rw [interceptor_non401 s d req err refresh h401]
  exact ⟨rfl, rfl, rfl, rfl, fun _ => rfl, fun _ => rfl, fun _ => rfl,
    fun _ => rfl, fun _ => rfl, rfl⟩

/-- C5 witness: concrete run with a 404 response. -/
theorem c5_witness :
    (responseErrorInterceptor ⟨some "t", some "rt", some "u"⟩ ⟨none⟩
        ⟨false, none⟩ (.response 404 (some "missing")) .failure).retries = 0 ∧
    (responseErrorInterceptor ⟨some "t", some "rt", some "u"⟩ ⟨none⟩
        ⟨false, none⟩ (.response 404 (some "missing"))
        .failure).refreshAttempts = 0 := by
  have h := c5_non_auth_errors_reject ⟨some "t", some "rt", some "u"⟩ ⟨none⟩
    ⟨false, none⟩ .failure (.response 404 (some "missing"))
    (Or.inl ⟨404, some "missing", rfl, by simp⟩)
  exact ⟨h.1, h.2.1⟩

/-- C6: the role predicates are pure functions of the current session: with
no user both return false for every argument; with a user present, hasRole
holds exactly when the queried role equals the user role, and hasAnyRole
holds exactly when the user role is a member of the queried list. -/
theorem c6_role_predicates :
    (∀ role, hasRole none role = false) ∧
    (∀ roles, hasAnyRole none roles = false) ∧
    (∀ (u : User) (role : String), hasRole (some u) role = true ↔ role = u.role) ∧
    (∀ (u : User) (roles : List String),
      hasAnyRole (some u) roles = true ↔ u.role ∈ roles) := by
  refine ⟨fun _ => rfl, fun _ => rfl, ?_, ?_⟩
  · intro u role
    simp only [hasRole, beq_iff_eq]
    exact eq_comm
  · intro u roles
    simp [hasAnyRole]

/-- C7: for every server behavior, endpoint and params, paginatedRequest
returns exactly the data and pagination fields of the response body,
unwrapped unchanged into the normalized shape. -/
theorem c7_paginated_request_unwraps (α β : Type)
    (server : String → JSObj → ApiBody α β) (endpoint : String)
    (params : JSObj) :
    paginatedRequest server endpoint params =
      { data := (server endpoint params).data
        pagination := (server endpoint params).pagination } := rfl

/-- C8 counterexample: the response interceptor, which belongs to the HTTP
client core and not to the session or auth state holder, mutates the default
Authorization header on the refresh-success path, refuting the claim that no
writer outside the session/auth state holder exists. -/
theorem c8_counterexample :
    (responseErrorInterceptor ⟨some "t", some "rt", some "u"⟩
        ⟨some "Bearer t"⟩ ⟨false, none⟩ (.response 401 none)
        (.success "t2" "rt2")).defaults ≠ ⟨some "Bearer t"⟩ := by
  decide

/-- C8 (amended): within the HTTP client core, the response interceptor
leaves the default Authorization header unchanged on every path except the
refresh-success path, where it sets the header to the refreshed bearer
token; the in-memory session state is not accessible to the interceptor and
is written only by the session/auth state holder operations. -/
theorem c8_default_header_writers (s : Storage) (d : Defaults)
    (req : AxiosRequest) (err : AxiosError) (r : RefreshOutcome) :
    (responseErrorInterceptor s d req err r).defaults = d ∨
    (is401 err = true ∧ req.retry = false ∧ s.refreshToken.isSome = true ∧
      ∃ t n, r = .success t n ∧
        (responseErrorInterceptor s d req err r).defaults =
          ⟨some ("Bearer " ++ t)⟩) := by
  obtain ⟨retry, ah⟩ := req
  cases retry with
  | true =>
    left
    simp [responseErrorInterceptor]
  | false =>
    cases h4 : is401 err with
    | false =>
      left
      rw [interceptor_non401 _ _ _ _ _ h4]
    | true =>
      cases hrt : s.refreshToken with
      | none =>
        left
        simp [responseErrorInterceptor, h4, hrt]
      | some rt =>
        cases r with
        | failure =>
          left
          simp [responseErrorInterceptor, h4, hrt]
        | success t n =>
          right
          refine ⟨rfl, rfl, by simp [hrt], t, n, rfl, ?_⟩
          simp [responseErrorInterceptor, h4, hrt]

/-- C9: logout removes only the token and user storage keys, preserving the
refreshToken key; the startup restoration never touches the refreshToken
key on any path, including the verification-failure cleanup; and the 401
refresh-failure path of the response interceptor removes all three keys. -/
theorem c9_refresh_token_key_survival :
    (∀ (s : Storage) (mt : Option String) (mu : Option User) (b : Bool),
      (logout s mt mu b).storage.refreshToken = s.refreshToken ∧
      (logout s mt mu b).storage.token = none ∧
      (logout s mt mu b).storage.user = none) ∧
    (∀ (s : Storage) (d : Defaults) (pu : String → User) (v : Bool),
      (authProviderStartup s d pu v).storage.refreshToken = s.refreshToken) ∧
    (∀ (s : Storage) (d : Defaults) (req : AxiosRequest) (m : Option String),
      req.retry = false → s.refreshToken.isSome = true →
      (responseErrorInterceptor s d req (.response 401 m) .failure).storage =
        ⟨none, none, none⟩) := by
  refine ⟨?_, ?_, ?_⟩
  · intro s mt mu b
    cases b <;> exact ⟨rfl, rfl, rfl⟩
  · intro s d pu v
    rcases s with ⟨t, rt, u⟩
    cases t <;> cases u <;> cases v <;> rfl
  · intro s d req m h hrt
    obtain ⟨rt, hrt⟩ := Option.isSome_iff_exists.mp hrt
    obtain ⟨retry, ah⟩ := req
    cases h
    simp [responseErrorInterceptor, is401, hrt]

/-- C9 witness: concrete runs of the logout path, the startup cleanup path,
and the interceptor refresh-failure path. -/
theorem c9_witness :
    (logout ⟨some "a", some "b", some "c"⟩ (some "a") none true).storage.refreshToken =
      (Storage.mk (some "a") (some "b") (some "c")).refreshToken ∧
    (authProviderStartup ⟨some "a", some "b", some "c"⟩ ⟨none⟩
        (fun _ => ⟨"MEMBER"⟩) false).storage.refreshToken =
      (Storage.mk (some "a") (some "b") (some "c")).refreshToken ∧
    (responseErrorInterceptor ⟨some "a", some "b", some "c"⟩ ⟨none⟩
        ⟨false, none⟩ (.response 401 none) .failure).storage =
      ⟨none, none, none⟩ :=
  ⟨(c9_refresh_token_key_survival.1 ⟨some "a", some "b", some "c"⟩ (some "a")
      none true).1,
   c9_refresh_token_key_survival.2.1 ⟨some "a", some "b", some "c"⟩ ⟨none⟩
     (fun _ => ⟨"MEMBER"⟩) false,
   c9_refresh_token_key_survival.2.2 ⟨some "a", some "b", some "c"⟩ ⟨none⟩
     ⟨false, none⟩ none rfl rfl⟩

/-- C10: infiniteScrollRequest with endpoint, page, limit and params
returns exactly the result of paginatedRequest on the object literal built
from page, limit and the spread params, for every server behavior; and the
call form with limit and params omitted equals the same with limit 20 and
the empty params object, matching the declared defaults. -/
theorem c10_infinite_scroll_equiv :
    (∀ (α β : Type) (server : String → JSObj → ApiBody α β) (endpoint : String)
      (page limit : Int) (params : JSObj),
      infiniteScrollRequest server endpoint page limit params =
        paginatedRequest server endpoint (scrollParams page limit params)) ∧
    (∀ (α β : Type) (server : String → JSObj → ApiBody α β) (endpoint : String)
      (page : Int),
      infiniteScrollRequestOmitted server endpoint page =
        paginatedRequest server endpoint (scrollParams page 20 [])) :=
  ⟨fun _ _ _ _ _ _ _ => rfl, fun _ _ _ _ _ => rfl⟩

end BarangayLink
